import Mathlib

/-!
Shallow embedding of `src/packages/grpc-native-core/ext/server.cc` (the
server-side bridge between the native gRPC engine and the Node host).

The embedding models:
  - the `Server` wrapper object state (`wrapped_server`, `is_shutdown`,
    `running_self_ref`);
  - the two `Op` subclasses `ServerShutdownOp` and `NewCallOp`, with their
    `GetNodeValue` result builders and `OnComplete` hooks (the hook bodies
    mutate the pointed-to `Server`, so they are modelled as explicit state
    transformers on `Server`);
  - the native-engine calls each method emits, as an explicit request list
    (`grpc_server_shutdown_and_notify`, `grpc_server_cancel_all_calls`,
    `grpc_server_request_call`, `CompletionQueueNext`), in program order;
  - the argument-shape checks each `NAN_METHOD` performs before touching the
    engine.

External nondeterminism (the `grpc_call_error` returned by
`grpc_server_request_call`, the port returned by the bind calls) is passed in
as a parameter. Completion-queue events are processed by the dispatcher in
`completion_queue.cc`, outside this file; in this model a completion is a
separate event that applies the relevant `OnComplete` transformer, and
`CompletionQueueNext` is recorded as an emitted nudge request, since the
source method bodies themselves never run completion hooks inline.
-/

/-- The `Server` wrapper state: the owned native `grpc_server` (identified by a
numeric id), the `is_shutdown` flag (initialised to `false` by the
constructor), and whether the `running_self_ref` persistent handle is
non-empty (set by `Start`, cleared by `FinishShutdown`). -/
structure Server where
  wrapped_server : Nat
  is_shutdown : Bool
  running_self_ref : Bool
  deriving DecidableEq

/-- The two `Op` subclasses that appear in `server.cc`. -/
inductive OpKind where
  | serverShutdown
  | newCall
  deriving DecidableEq

/-- The continuation bound into a `tag`: either a user-supplied JS function
(from `info[0]`, identified by a numeric id) or the internal static
`shutdown_cb` (`ShutdownCallback`). -/
inductive Continuation where
  | userCallback (id : Nat)
  | shutdown_cb
  deriving DecidableEq

/-- The `struct tag` allocated at each submission site: the continuation and
the ops bound to the completion event (the call and context slots are always
`NULL` / `Nan::Null()` in this file and are omitted). -/
structure tag where
  callback : Continuation
  ops : List OpKind
  deriving DecidableEq

/-- A native-engine call emitted by a server method, in program order. -/
inductive EngineReq where
  | grpc_server_shutdown_and_notify (t : tag)
  | grpc_server_cancel_all_calls
  | grpc_server_request_call (t : tag)
  | CompletionQueueNext
  deriving DecidableEq

/-- `Server::FinishShutdown`: sets `is_shutdown` and resets
`running_self_ref`. -/
def Server.FinishShutdown (s : Server) : Server :=
  { s with is_shutdown := true, running_self_ref := false }

/-- `ServerShutdownOp::OnComplete(bool success)`: calls
`server->FinishShutdown()` when `success` holds, otherwise does nothing. The
pointed-to server is threaded explicitly. -/
def ServerShutdownOp.OnComplete (success : Bool) (s : Server) : Server :=
  if success then s.FinishShutdown else s

/-- `NewCallOp::OnComplete(bool success)`: the body is empty, so the induced
transformer on the owning server is the identity for both flag values. -/
def NewCallOp.OnComplete (_success : Bool) (s : Server) : Server := s

/-- `Server::ShutdownServer` (the `forceShutdown` path): when `is_shutdown` is
still false, submits `grpc_server_shutdown_and_notify` with a fresh tag whose
continuation is the internal `shutdown_cb` and whose single op is a
`ServerShutdownOp`, then `grpc_server_cancel_all_calls`, then nudges the queue
with `CompletionQueueNext`. It writes no field of the server itself:
`is_shutdown` is only ever set by `FinishShutdown`, which the dispatcher runs
when the shutdown completion is later delivered. -/
def Server.ShutdownServer (s : Server) : Server × List EngineReq :=
  if s.is_shutdown then (s, [])
  else
    (s,
     [EngineReq.grpc_server_shutdown_and_notify
        ⟨Continuation.shutdown_cb, [OpKind.serverShutdown]⟩,
      EngineReq.grpc_server_cancel_all_calls,
      EngineReq.CompletionQueueNext])

/-- `Server::ForceShutdown` unwraps the receiver and calls
`ShutdownServer`. -/
def Server.ForceShutdown (s : Server) : Server × List EngineReq :=
  s.ShutdownServer

/-- The first argument of `tryShutdown` / `requestCall` as seen at the JS
boundary: a function (identified by a numeric id) or anything else. -/
inductive JsArg where
  | func (id : Nat)
  | notFunc
  deriving DecidableEq

/-- Outcome of `Server::TryShutdown`: a thrown error (the argument was not a
function) or normal return. -/
inductive TryShutdownResult where
  | errorThrown
  | ok
  deriving DecidableEq

/-- `Server::TryShutdown`: throws when `info[0]` is not a function; otherwise
submits `grpc_server_shutdown_and_notify` with a fresh tag binding the
user callback and one `ServerShutdownOp`, then calls `CompletionQueueNext`.
The method reads neither `is_shutdown` nor any other server field and writes
none of them; the server state is passed through unchanged. -/
def Server.TryShutdown (s : Server) (arg : JsArg) :
    TryShutdownResult × Server × List EngineReq :=
  match arg with
  | JsArg.notFunc => (TryShutdownResult.errorThrown, s, [])
  | JsArg.func id =>
      (TryShutdownResult.ok, s,
       [EngineReq.grpc_server_shutdown_and_notify
          ⟨Continuation.userCallback id, [OpKind.serverShutdown]⟩,
        EngineReq.CompletionQueueNext])

/-- Two calls of `ShutdownServer` in direct succession, with no dispatcher
event processed in between (so no `OnComplete` hook runs between the calls);
returns the final state and the concatenated request lists. -/
def Server.ShutdownServerTwice (s : Server) : Server × List EngineReq :=
  ((s.ShutdownServer.1.ShutdownServer).1,
   s.ShutdownServer.2 ++ s.ShutdownServer.1.ShutdownServer.2)

/-- The `GRPC_CALL_OK` status of `grpc_call_error`. -/
def GRPC_CALL_OK : Nat := 0

/-- Outcome of `Server::RequestCall`: a thrown `EngineError` carrying the
native `grpc_call_error` code (from `nanErrorWithCode`), or normal return. -/
inductive RequestCallResult where
  | errorThrown (code : Nat)
  | ok
  deriving DecidableEq

/-- `Server::RequestCall`: allocates a `NewCallOp` and submits
`grpc_server_request_call` with a tag binding the callback from `info[0]`
(used unchecked via `.As<Function>()`). The `grpc_call_error` returned by the
engine is external input, passed in as `error`. When it is not `GRPC_CALL_OK`
the method throws and returns before the `CompletionQueueNext` nudge;
otherwise it nudges exactly once after the submission. -/
def Server.RequestCall (_s : Server) (cbId : Nat) (error : Nat) :
    RequestCallResult × List EngineReq :=
  let submit := EngineReq.grpc_server_request_call
      ⟨Continuation.userCallback cbId, [OpKind.newCall]⟩
  if error = GRPC_CALL_OK then
    (RequestCallResult.ok, [submit, EngineReq.CompletionQueueNext])
  else
    (RequestCallResult.errorThrown error, [submit])

/-- The first argument of `addHttp2Port` at the JS boundary. -/
inductive AddrArg where
  | str (a : String)
  | notStr
  deriving DecidableEq

/-- The second argument of `addHttp2Port` at the JS boundary: absent
(`undefined`), present but not a `ServerCredentials` instance, or a
`ServerCredentials` whose wrapped native `grpc_server_credentials` is either
`NULL` (insecure credentials) or a real credentials object (identified by a
numeric id). -/
inductive CredArg where
  | absent
  | notCreds
  | creds (wrapped : Option Nat)
  deriving DecidableEq

/-- A port-binding call emitted to the native engine by `AddHttp2Port`. -/
inductive BindReq where
  | grpc_server_add_insecure_http2_port (addr : String)
  | grpc_server_add_secure_http2_port (addr : String) (creds : Nat)
  deriving DecidableEq

/-- Outcome of `Server::AddHttp2Port`: a thrown `TypeError` (first argument
not a string, or second argument not a `ServerCredentials`), or the port
number returned by the bind call. -/
inductive AddPortResult where
  | typeErrorThrown
  | port (n : Nat)
  deriving DecidableEq

/-- `Server::AddHttp2Port`: checks the address is a string, then that
`info[1]` is a `ServerCredentials` instance (absent or wrong-typed arguments
throw `TypeError`); binds insecurely when the wrapped credentials pointer is
`NULL`, securely otherwise, and returns the int the engine produced (0 on
bind failure; passed in as `enginePort`). No server field is touched: the
state is returned unchanged. -/
def Server.AddHttp2Port (s : Server) (addr : AddrArg) (cred : CredArg)
    (enginePort : Nat) : AddPortResult × Server × List BindReq :=
  match addr with
  | AddrArg.notStr => (AddPortResult.typeErrorThrown, s, [])
  | AddrArg.str a =>
    match cred with
    | CredArg.absent => (AddPortResult.typeErrorThrown, s, [])
    | CredArg.notCreds => (AddPortResult.typeErrorThrown, s, [])
    | CredArg.creds none =>
        (AddPortResult.port enginePort, s,
         [BindReq.grpc_server_add_insecure_http2_port a])
    | CredArg.creds (some c) =>
        (AddPortResult.port enginePort, s,
         [BindReq.grpc_server_add_secure_http2_port a c])

/-- A key of the configuration object passed to the `Server` constructor: a
string, or anything else. -/
inductive ConfigKey where
  | str (s : String)
  | nonStr
  deriving DecidableEq

/-- A value of the configuration object: an integer, a string, or anything
else. -/
inductive ConfigVal where
  | intV (n : Int)
  | strV (s : String)
  | other
  deriving DecidableEq

/-- The configuration object handed to the constructor, as an ordered list of
key/value entries. -/
abbrev Config := List (ConfigKey × ConfigVal)

/-- Whether one configuration entry is acceptable to the channel-args parser:
the key must be a string and the value an integer or a string. -/
def validChannelArg : ConfigKey × ConfigVal → Bool := fun kv =>
  (match kv.1 with
   | ConfigKey.str _ => true
   | ConfigKey.nonStr => false)
  &&
  (match kv.2 with
   | ConfigVal.intV _ => true
   | ConfigVal.strV _ => true
   | ConfigVal.other => false)

/-- Modelled from the spec: `ParseChannelArgs` is defined outside this file
(in the channel-arguments translation unit, not under src/); per the spec the
configuration must be a mapping with string keys and integer or string
values, so parsing succeeds iff every entry is such a pair. -/
def ParseChannelArgs (cfg : Config) : Bool :=
  cfg.all validChannelArg

/-- A native allocation call emitted by the constructor. -/
inductive NativeCall where
  | grpc_server_create
  | grpc_server_register_completion_queue
  deriving DecidableEq

/-- Outcome of `Server::New` on the construct path: the thrown `TypeError`
for malformed options (the `ConfigurationError` of the spec taxonomy), or the
wrapped server object. -/
inductive ConstructResult where
  | configurationError
  | ok (s : Server)
  deriving DecidableEq

/-- `Server::New` (construct path): when `ParseChannelArgs` rejects `info[0]`
it throws the malformed-options `TypeError` before any native allocation;
otherwise it calls `grpc_server_create`, registers the completion queue, and
wraps a new `Server` whose constructor sets `is_shutdown = false` (and whose
`running_self_ref` starts empty). -/
def Server.New (cfg : Config) : ConstructResult × List NativeCall :=
  if ParseChannelArgs cfg then
    (ConstructResult.ok
       { wrapped_server := 0, is_shutdown := false, running_self_ref := false },
     [NativeCall.grpc_server_create,
      NativeCall.grpc_server_register_completion_queue])
  else
    (ConstructResult.configurationError, [])

/-- A field value inside the host-visible result record built by
`NewCallOp::GetNodeValue`: the wrapped call handle, a decoded string, a date
(milliseconds from `TimespecToMilliseconds`), or the parsed metadata. -/
inductive FieldVal where
  | callHandle (id : Nat)
  | str (s : String)
  | date (ms : Int)
  | metadata (md : List (String × String))
  deriving DecidableEq

/-- A host-visible value produced by an op result builder: `Nan::Null()`, the
server wrapper handle (`server->handle()`), or a record given as an ordered
field list. -/
inductive NodeValue where
  | null
  | serverHandle (id : Nat)
  | record (fields : List (String × FieldVal))
  deriving DecidableEq

/-- Whether a host-visible value is a data-bearing record. -/
def NodeValue.isDataRecord : NodeValue → Bool
  | NodeValue.record _ => true
  | _ => false

/-- The state of a `NewCallOp` when its result is built: the `grpc_call`
pointer (`NULL` or a call handle), the decoded `grpc_call_details` fields,
and the received request metadata. -/
structure NewCallOp where
  call : Option Nat
  details_method : String
  details_host : String
  details_deadline : Int
  request_metadata : List (String × String)
  deriving DecidableEq

/-- `NewCallOp::GetNodeValue`: returns `Nan::Null()` when `call` is `NULL`
(raising no error); otherwise builds an object and sets exactly the
properties `call`, `method`, `host`, `deadline` and `metadata`, in that
order. -/
def NewCallOp.GetNodeValue (op : NewCallOp) : NodeValue :=
  match op.call with
  | none => NodeValue.null
  | some c =>
      NodeValue.record
        [("call", FieldVal.callHandle c),
         ("method", FieldVal.str op.details_method),
         ("host", FieldVal.str op.details_host),
         ("deadline", FieldVal.date op.details_deadline),
         ("metadata", FieldVal.metadata op.request_metadata)]

/-- The state of a `ServerShutdownOp`: only the back-reference to the owning
server (identified by the id used for its wrapper handle). -/
structure ServerShutdownOp where
  server : Nat
  deriving DecidableEq

/-- `ServerShutdownOp::GetNodeValue`: escapes `server->handle()`, the wrapper
handle of the owning server; it reads no completion data (the op has
none). -/
def ServerShutdownOp.GetNodeValue (op : ServerShutdownOp) : NodeValue :=
  NodeValue.serverHandle op.server

/-- A request list that ends with exactly one `CompletionQueueNext` nudge,
placed after everything submitted. -/
def singleNudgeAfterSubmit (rs : List EngineReq) : Prop :=
  ∃ pre, rs = pre ++ [EngineReq.CompletionQueueNext] ∧
    EngineReq.CompletionQueueNext ∉ pre

/-- C1 counterexample: on a server that is not already shut down,
`TryShutdown` does NOT submit a cancel-all-pending-calls request; the claimed
`grpc_server_cancel_all_calls` submission is absent from its request list
(only `ShutdownServer`, the forceShutdown path, emits it). -/
theorem C1_tryShutdown_no_cancel_all :
    EngineReq.grpc_server_cancel_all_calls ∉
      (Server.TryShutdown ⟨0, false, true⟩ (JsArg.func 0)).2.2 := by
  decide

/-- C1 (amended): for every server handle, whatever its shutdown state,
`TryShutdown` with a function argument submits exactly one `ShutdownNotify`
operation (a `grpc_server_shutdown_and_notify` carrying one
`ServerShutdownOp` and the user callback) and then synchronously issues one
`CompletionQueueNext` drain; it submits no cancel-all-pending-calls
request. -/
theorem C1_tryShutdown_submissions (s : Server) (id : Nat) :
    (Server.TryShutdown s (JsArg.func id)).2.2 =
      [EngineReq.grpc_server_shutdown_and_notify
         ⟨Continuation.userCallback id, [OpKind.serverShutdown]⟩,
       EngineReq.CompletionQueueNext] ∧
    EngineReq.grpc_server_cancel_all_calls ∉
      (Server.TryShutdown s (JsArg.func id)).2.2 := by
  refine ⟨rfl, ?_⟩
  simp [Server.TryShutdown]

/-- C2 counterexample: on a handle already shut down (`is_shutdown = true`),
`TryShutdown` is not a no-op: it still submits to the native engine. -/
theorem C2_tryShutdown_shutdown_not_noop :
    (Server.TryShutdown ⟨0, true, false⟩ (JsArg.func 0)).2.2 ≠ [] := by
  decide

/-- C2 (amended): `TryShutdown` has no `is_shutdown` guard. Even on a handle
whose state is already shut down it submits the `ShutdownNotify` operation,
with the supplied `onComplete` callback registered as that tag's
continuation (so the callback fires when the dispatcher later delivers the
completion, not by any synchronous no-op path); the server fields are left
untouched. -/
theorem C2_tryShutdown_unguarded (s : Server) (id : Nat)
    (_h : s.is_shutdown = true) :
    (Server.TryShutdown s (JsArg.func id)).2.2 =
      [EngineReq.grpc_server_shutdown_and_notify
         ⟨Continuation.userCallback id, [OpKind.serverShutdown]⟩,
       EngineReq.CompletionQueueNext] ∧
    (Server.TryShutdown s (JsArg.func id)).2.1 = s :=
  ⟨rfl, rfl⟩

/-- C2 witness: the amended statement applied to a concrete shut-down
handle. -/
theorem C2_tryShutdown_unguarded_witness :
    (Server.TryShutdown ⟨0, true, false⟩ (JsArg.func 0)).2.2 =
      [EngineReq.grpc_server_shutdown_and_notify
         ⟨Continuation.userCallback 0, [OpKind.serverShutdown]⟩,
       EngineReq.CompletionQueueNext] ∧
    (Server.TryShutdown ⟨0, true, false⟩ (JsArg.func 0)).2.1 =
      (⟨0, true, false⟩ : Server) :=
  C2_tryShutdown_unguarded ⟨0, true, false⟩ 0 rfl

/-- C3 counterexample: two `ShutdownServer` calls in direct succession (no
dispatcher event in between, so `FinishShutdown` has not yet run and
`is_shutdown` is still false at the second call) submit the
shutdown-notify/cancel-all pair twice, refuting the claimed at-most-once
bound. -/
theorem C3_forceShutdown_twice_two_pairs :
    ¬ ((Server.ShutdownServerTwice ⟨0, false, true⟩).2.count
         EngineReq.grpc_server_cancel_all_calls ≤ 1) := by
  decide

/-- C3 (amended): `ShutdownServer` is guarded by `is_shutdown`, which only
`FinishShutdown` sets: when the handle is already shut down it submits
nothing; once the shutdown completion has been processed
(`ServerShutdownOp::OnComplete` with success), every further call submits
nothing and the self-reference is already released; and `FinishShutdown` is
idempotent, so the release transition happens at most once. Before the first
completion is processed, however, each call submits the pair again. -/
theorem C3_forceShutdown_guard (s : Server) :
    (s.is_shutdown = true → s.ShutdownServer = (s, [])) ∧
    (ServerShutdownOp.OnComplete true s).ShutdownServer =
      (ServerShutdownOp.OnComplete true s, []) ∧
    (ServerShutdownOp.OnComplete true s).running_self_ref = false ∧
    (s.FinishShutdown).FinishShutdown = s.FinishShutdown := by
  refine ⟨fun h => ?_, ?_, rfl, rfl⟩
  · simp [Server.ShutdownServer, h]
  · simp [ServerShutdownOp.OnComplete, Server.FinishShutdown,
      Server.ShutdownServer]

/-- C3 witness: the guard applied to a concrete shut-down handle. -/
theorem C3_forceShutdown_guard_witness :
    Server.ShutdownServer ⟨0, true, false⟩ = ((⟨0, true, false⟩ : Server), []) :=
  (C3_forceShutdown_guard ⟨0, true, false⟩).1 rfl

/-- C4: `ServerShutdownOp::OnComplete` with `success = true` sets the owning
handle's `is_shutdown` flag and releases its self-reference (leaving the
native resource reference untouched); with `success = false` the handle is
left entirely unchanged. -/
theorem C4_shutdown_onComplete (b : Bool) (s : Server) :
    (b = true →
       (ServerShutdownOp.OnComplete b s).is_shutdown = true ∧
       (ServerShutdownOp.OnComplete b s).running_self_ref = false ∧
       (ServerShutdownOp.OnComplete b s).wrapped_server = s.wrapped_server) ∧
    (b = false → ServerShutdownOp.OnComplete b s = s) := by
  cases b <;>
    simp [ServerShutdownOp.OnComplete, Server.FinishShutdown]

/-- C4 witness: the successful-completion branch evaluated at a concrete
running handle. -/
theorem C4_shutdown_onComplete_witness :
    (ServerShutdownOp.OnComplete true ⟨7, false, true⟩).is_shutdown = true ∧
    (ServerShutdownOp.OnComplete true ⟨7, false, true⟩).running_self_ref = false ∧
    (ServerShutdownOp.OnComplete true ⟨7, false, true⟩).wrapped_server =
      (Server.mk 7 false true).wrapped_server :=
  (C4_shutdown_onComplete true ⟨7, false, true⟩).1 rfl

/-- C5: `NewCallOp::GetNodeValue` is total (it raises nothing): when the
native call reference is empty the host-visible result is null, and
otherwise it is a record whose keys are exactly `call`, `method`, `host`,
`deadline` and `metadata`, in that order. -/
theorem C5_newCall_getNodeValue (op : NewCallOp) :
    (op.call = none → op.GetNodeValue = NodeValue.null) ∧
    (op.call.isSome = true →
       ∃ fs, op.GetNodeValue = NodeValue.record fs ∧
         fs.map Prod.fst = ["call", "method", "host", "deadline", "metadata"]) := by
  rcases op with ⟨c, m, a, d, md⟩
  cases c with
  | none => exact ⟨fun _ => rfl, by simp [Option.isSome]⟩
  | some k => exact ⟨by simp, fun _ => ⟨_, rfl, rfl⟩⟩

/-- C5 witness: the populated branch evaluated at a concrete accepted
call. -/
theorem C5_newCall_getNodeValue_witness :
    ∃ fs, (NewCallOp.mk (some 1) "m" "h" 0 []).GetNodeValue =
        NodeValue.record fs ∧
      fs.map Prod.fst = ["call", "method", "host", "deadline", "metadata"] :=
  (C5_newCall_getNodeValue ⟨some 1, "m", "h", 0, []⟩).2 rfl

/-- C6: a `ShutdownNotify` operation carries no data payload: its
`GetNodeValue` produces no data-bearing record (it merely escapes the owning
server's wrapper handle), and its completion hook does nothing but the
lifecycle transition (`FinishShutdown`, which also releases the
self-reference) or nothing at all. -/
theorem C6_shutdown_op_no_payload (op : ServerShutdownOp) (b : Bool)
    (s : Server) :
    op.GetNodeValue.isDataRecord = false ∧
    (ServerShutdownOp.OnComplete b s = s ∨
     ServerShutdownOp.OnComplete b s = s.FinishShutdown) := by
  refine ⟨rfl, ?_⟩
  cases b
  · exact Or.inl rfl
  · exact Or.inr rfl

/-- C7: for every configuration containing an entry whose key is not a
string or whose value is neither an integer nor a string, construction fails
synchronously with the configuration error and emits no native allocation
call (`grpc_server_create` is never reached). -/
theorem C7_malformed_config_rejected (cfg : Config)
    (kv : ConfigKey × ConfigVal) (hmem : kv ∈ cfg)
    (hbad : (∀ a, kv.1 ≠ ConfigKey.str a) ∨
            ((∀ n, kv.2 ≠ ConfigVal.intV n) ∧ (∀ a, kv.2 ≠ ConfigVal.strV a))) :
    (Server.New cfg).1 = ConstructResult.configurationError ∧
    (Server.New cfg).2 = [] := by
  have hval : validChannelArg kv = false := by
    rcases kv with ⟨k, v⟩
    rcases hbad with hk | ⟨hv1, hv2⟩
    · cases k
      · exact absurd rfl (hk _)
      · simp [validChannelArg]
    · cases v
      · exact absurd rfl (hv1 _)
      · exact absurd rfl (hv2 _)
      · cases k <;> simp [validChannelArg]
  have hparse : ParseChannelArgs cfg = false := by
    cases hpc : ParseChannelArgs cfg with
    | false => rfl
    | true =>
        have hall := List.all_eq_true.mp hpc kv hmem
        rw [hval] at hall
        exact Bool.noConfusion hall
  constructor <;> simp [Server.New, hparse]

/-- C7 witness: a one-entry configuration with a non-string key is rejected
with no allocation. -/
theorem C7_malformed_config_rejected_witness :
    (Server.New [(ConfigKey.nonStr, ConfigVal.intV 0)]).1 =
      ConstructResult.configurationError ∧
    (Server.New [(ConfigKey.nonStr, ConfigVal.intV 0)]).2 = [] :=
  C7_malformed_config_rejected _ (ConfigKey.nonStr, ConfigVal.intV 0)
    (List.mem_singleton.mpr rfl)
    (Or.inl fun _ h => ConfigKey.noConfusion h)

/-- C8 counterexample: with the credentials argument absent, `AddHttp2Port`
does not bind in plaintext mode; it throws `TypeError` and emits no bind
call at all. -/
theorem C8_addPort_absent_creds_throws :
    (Server.AddHttp2Port ⟨0, false, false⟩ (AddrArg.str "0.0.0.0:0")
        CredArg.absent 80).1 = AddPortResult.typeErrorThrown ∧
    (Server.AddHttp2Port ⟨0, false, false⟩ (AddrArg.str "0.0.0.0:0")
        CredArg.absent 80).2.2 = [] :=
  ⟨rfl, rfl⟩

/-- C8 (amended): `AddHttp2Port` requires a `ServerCredentials` instance:
when the argument is absent it throws `TypeError` and binds nothing. Given a
`ServerCredentials` wrapping `NULL` it binds in plaintext mode, and given one
wrapping real native credentials it binds in secured mode; in both cases it
returns the port the engine produced (0 is the falsy bind-failure sentinel,
passed through unchanged) and leaves the server state unchanged. -/
theorem C8_addPort_modes (s : Server) (a : String) (c p : Nat) :
    Server.AddHttp2Port s (AddrArg.str a) (CredArg.creds none) p =
      (AddPortResult.port p, s,
       [BindReq.grpc_server_add_insecure_http2_port a]) ∧
    Server.AddHttp2Port s (AddrArg.str a) (CredArg.creds (some c)) p =
      (AddPortResult.port p, s,
       [BindReq.grpc_server_add_secure_http2_port a c]) ∧
    Server.AddHttp2Port s (AddrArg.str a) CredArg.absent p =
      (AddPortResult.typeErrorThrown, s, []) :=
  ⟨rfl, rfl, rfl⟩

/-- C9: each engine-submitting path — `RequestCall` with an accepted
submission, `TryShutdown` with a function argument, and `ShutdownServer` on
a not-yet-shut-down handle — issues exactly one `CompletionQueueNext` nudge,
placed immediately after all of its submissions. -/
theorem C9_one_nudge_per_submission (s : Server) (cb tid e : Nat)
    (hok : e = GRPC_CALL_OK) (hns : s.is_shutdown = false) :
    singleNudgeAfterSubmit (Server.RequestCall s cb e).2 ∧
    singleNudgeAfterSubmit (Server.TryShutdown s (JsArg.func tid)).2.2 ∧
    singleNudgeAfterSubmit (s.ShutdownServer).2 := by
  subst hok
  refine ⟨⟨[EngineReq.grpc_server_request_call
              ⟨Continuation.userCallback cb, [OpKind.newCall]⟩], ?_, by simp⟩,
          ⟨[EngineReq.grpc_server_shutdown_and_notify
              ⟨Continuation.userCallback tid, [OpKind.serverShutdown]⟩],
            ?_, by simp⟩,
          ⟨[EngineReq.grpc_server_shutdown_and_notify
              ⟨Continuation.shutdown_cb, [OpKind.serverShutdown]⟩,
            EngineReq.grpc_server_cancel_all_calls], ?_, by simp⟩⟩
  · simp [Server.RequestCall]
  · simp [Server.TryShutdown]
  · simp [Server.ShutdownServer, hns]

/-- C9 witness: the request-call branch at a concrete running handle with an
accepted submission. -/
theorem C9_one_nudge_per_submission_witness :
    singleNudgeAfterSubmit (Server.RequestCall ⟨0, false, true⟩ 1 0).2 :=
  (C9_one_nudge_per_submission ⟨0, false, true⟩ 1 2 0 rfl rfl).1

/-- C10: `NewCallOp::OnComplete` has an empty body, so completing an
accept-call operation never mutates the owning server handle: for both
values of the success flag, the whole state — `is_shutdown`, the
self-reference, and the native resource reference — is unchanged. -/
theorem C10_newCall_onComplete_frame (b : Bool) (s : Server) :
    NewCallOp.OnComplete b s = s :=
  rfl
